import Mathlib

/-!
Verification of the Azure-Repos demo repository.

Shallow embedding of the two Python flows:
  * examples/simple-project/src/config.py  (environment-variant Config)
  * examples/simple-project/src/utils.py   (format_message, validate_config, safe_get)
  * src/app.py                             (file-variant AzureDevOpsApp)

Python dictionaries are association lists with unique keys; Python values
are a small inductive `PyVal`.  External effects are explicit parameters:
the process environment is a function `String → Option String` (os.getenv),
the file system together with json.load is a function
`String → JsonReadResult`, and the wall clock is a timestamp argument.
-/

/-- Python value: enough of Python's value universe for this repository
(None, bool, int, str, JSON-style lists and dicts). -/
inductive PyVal : Type where
  | none : PyVal
  | bool (b : Bool) : PyVal
  | int (n : Int) : PyVal
  | str (s : String) : PyVal
  | list (xs : List PyVal) : PyVal
  | dict (xs : List (String × PyVal)) : PyVal


/-- Lookup in a Python dict represented as an association list: the value
stored under `k`, or `Option.none` when `k` is absent (models `k in d` /
`d[k]` presence). -/
def dictGet (d : List (String × PyVal)) (k : String) : Option PyVal :=
  match d with
  | [] => Option.none
  | (k', v) :: rest => if k' = k then Option.some v else dictGet rest k

/-- Python `d.get(k, default)`: stored value when the key is present,
`default` otherwise. -/
def pyDictGetD (d : List (String × PyVal)) (k : String) (default : PyVal) : PyVal :=
  (dictGet d k).getD default

/-- Python `os.getenv(name, default)` over an explicit process environment. -/
def getenv (env : String → Option String) (name : String) (default : String) : String :=
  (env name).getD default

/-! ## examples/simple-project/src/utils.py -/

/-- Python truthiness of a `str`: a string is truthy iff it is non-empty. -/
def strTruthy (s : String) : Bool :=
  s ≠ ""

/-- Python truthiness of an `Optional[str]`: `None` is falsy, a string is
truthy iff non-empty. -/
def optStrTruthy : Option String → Bool
  | Option.none => false
  | Option.some s => strTruthy s

/-- utils.format_message: `if prefix: return f"{prefix} {message}"; return message`.
The optional second argument is `pfx` (source name is the word `prefix`). -/
def format_message (message : String) (pfx : Option String) : String :=
  if optStrTruthy pfx then (pfx.getD "") ++ " " ++ message
  else message

/-- Loop body of utils.validate_config: `for key in required_keys: if key
not in config_dict: return False` followed by `return True`. -/
def checkRequiredKeys (required_keys : List String) (config_dict : List (String × PyVal)) : Bool :=
  match required_keys with
  | [] => true
  | key :: rest =>
    if (dictGet config_dict key).isSome then checkRequiredKeys rest config_dict
    else false

/-- utils.validate_config: true iff every key in
`required_keys = ["version", "environment"]` is present in the dict. -/
def validate_config (config_dict : List (String × PyVal)) : Bool :=
  checkRequiredKeys ["version", "environment"] config_dict

/-- utils.safe_get: `return dictionary.get(key, default)`. -/
def safe_get (dictionary : List (String × PyVal)) (key : String) (default : PyVal) : PyVal :=
  pyDictGetD dictionary key default

/-! ## examples/simple-project/src/config.py -/

/-- Python `str.lower` on one character (ASCII case mapping, which covers
every string this repository compares). -/
def pyCharLower (c : Char) : Char :=
  if c.isUpper then Char.ofNat (c.toNat + 32) else c

/-- Python `str.lower`. -/
def pyLower (s : String) : String :=
  String.mk (s.data.map pyCharLower)

/-- The environment-variant configuration record built by `Config.__init__`.
The Python attribute `message_prefix` is the field `messageTag` here. -/
structure Config : Type where
  version : String
  environment : String
  debug : Bool
  messageTag : String


/-- Config.__init__ over an explicit process environment:
`version = "1.0.0"`, `environment = os.getenv("ENVIRONMENT", "development")`,
`debug = os.getenv("DEBUG", "true").lower() == "true"`,
and the `message_prefix` attribute `= os.getenv("MESSAGE_PREFIX", "[DEMO]")`. -/
def Config.init (env : String → Option String) : Config :=
  { version := "1.0.0"
    environment := getenv env "ENVIRONMENT" "development"
    debug := pyLower (getenv env "DEBUG" "true") == "true"
    messageTag := getenv env "MESSAGE_PREFIX" "[DEMO]" }

/-- Config.to_dict: the four attributes as a dictionary, in source order. -/
def Config.to_dict (c : Config) : List (String × PyVal) :=
  [ ("version", PyVal.str c.version)
  , ("environment", PyVal.str c.environment)
  , ("debug", PyVal.bool c.debug)
  , ("message_prefix", PyVal.str c.messageTag) ]

/-! ## src/app.py -/

/-- Outcome of `open(config_path)` followed by `json.load`: the file is
missing (`FileNotFoundError`), its content is not valid JSON
(`json.JSONDecodeError`), or it parses to a JSON object. -/
inductive JsonReadResult : Type where
  | fileNotFound : JsonReadResult
  | invalidJson : JsonReadResult
  | parsed (obj : List (String × PyVal)) : JsonReadResult


/-- AzureDevOpsApp._load_config over an explicit file system `fs` (path to
json.load outcome): the parsed object on success; the fixed three-field
default record on FileNotFoundError; the empty dict on JSONDecodeError.
Totality of this function models that neither handler re-raises. -/
def load_config (fs : String → JsonReadResult) (config_path : String) : List (String × PyVal) :=
  match fs config_path with
  | JsonReadResult.parsed obj => obj
  | JsonReadResult.fileNotFound =>
    [ ("version", PyVal.str "1.0.0")
    , ("environment", PyVal.str "development")
    , ("debug", PyVal.bool true) ]
  | JsonReadResult.invalidJson => []

/-- State of an AzureDevOpsApp instance after `__init__`: the resolved
config dict and `self.version = self.config.get("version", "1.0.0")`. -/
structure AzureDevOpsApp : Type where
  config : List (String × PyVal)
  version : PyVal


/-- AzureDevOpsApp.__init__ (default `config_path = "src/config.json"` is
passed explicitly). -/
def AzureDevOpsApp.init (fs : String → JsonReadResult) (config_path : String) : AzureDevOpsApp :=
  let config := load_config fs config_path
  { config := config
    version := pyDictGetD config "version" (PyVal.str "1.0.0") }

/-- AzureDevOpsApp.get_status, with the wall clock passed as `ts`. -/
def get_status (app : AzureDevOpsApp) (ts : String) : List (String × PyVal) :=
  [ ("status", PyVal.str "healthy")
  , ("version", app.version)
  , ("timestamp", PyVal.str ts)
  , ("environment", pyDictGetD app.config "environment" (PyVal.str "unknown")) ]

/-- AzureDevOpsApp.process_data, with `self.version` and the wall clock
passed explicitly. -/
def process_data (self_version : PyVal) (data : PyVal) (ts : String) : List (String × PyVal) :=
  [ ("original_data", data)
  , ("processed_at", PyVal.str ts)
  , ("status", PyVal.str "processed")
  , ("version", self_version) ]

/-! ## Claims -/

/-- C1: for every file path, AzureDevOpsApp._load_config returns the fixed
three-field default record {version: "1.0.0", environment: "development",
debug: true} when the file does not exist, and the empty mapping when the
file's content is not valid JSON; being a total Lean function, it returns a
value (never raises) on every outcome. -/
theorem load_config_fallback_spec (fs : String → JsonReadResult) (config_path : String) :
    (fs config_path = JsonReadResult.fileNotFound →
      load_config fs config_path =
        [ ("version", PyVal.str "1.0.0")
        , ("environment", PyVal.str "development")
        , ("debug", PyVal.bool true) ]) ∧
    (fs config_path = JsonReadResult.invalidJson →
      load_config fs config_path = []) := by
  constructor <;> intro h <;> simp [load_config, h]

/-- Witness for C1: concrete file systems hitting both failure branches. -/
theorem load_config_fallback_spec_witness :
    load_config (fun _ => JsonReadResult.fileNotFound) "src/config.json" =
      [ ("version", PyVal.str "1.0.0")
      , ("environment", PyVal.str "development")
      , ("debug", PyVal.bool true) ] ∧
    load_config (fun _ => JsonReadResult.invalidJson) "src/config.json" = [] :=
  ⟨(load_config_fallback_spec (fun _ => JsonReadResult.fileNotFound) "src/config.json").1 rfl,
   (load_config_fallback_spec (fun _ => JsonReadResult.invalidJson) "src/config.json").2 rfl⟩

/-- C2 counterexample: even in an environment where every variable is set to
"2.0.0", the constructed version field is still the constant "1.0.0" — so no
environment variable determines the version field, contrary to the claim. -/
theorem config_version_ignores_env :
    (Config.init (fun _ => Option.some "2.0.0")).version = "1.0.0" ∧
    ("1.0.0" : String) ≠ "2.0.0" :=
  ⟨rfl, by decide⟩

/-- C2 (amended): on construction the resolver reads three named environment
variables — ENVIRONMENT, DEBUG, MESSAGE_PREFIX — substituting the fixed
defaults "development", "true" (then compared to "true" case-insensitively)
and "[DEMO]" when absent, while the version field is the fixed constant
"1.0.0", not read from any environment variable. -/
theorem config_init_env_spec (env : String → Option String) :
    (Config.init env).version = "1.0.0" ∧
    (env "ENVIRONMENT" = Option.none → (Config.init env).environment = "development") ∧
    (∀ v, env "ENVIRONMENT" = Option.some v → (Config.init env).environment = v) ∧
    (env "DEBUG" = Option.none → (Config.init env).debug = true) ∧
    (∀ v, env "DEBUG" = Option.some v → (Config.init env).debug = (pyLower v == "true")) ∧
    (env "MESSAGE_PREFIX" = Option.none → (Config.init env).messageTag = "[DEMO]") ∧
    (∀ v, env "MESSAGE_PREFIX" = Option.some v → (Config.init env).messageTag = v) := by
  refine ⟨rfl, ?_, ?_, ?_, ?_, ?_, ?_⟩ <;> first
    | (intro h; simp [Config.init, getenv, h]; try rfl)
    | (intro v h; simp [Config.init, getenv, h]; try rfl)

/-- Witness for C2 (amended): a concrete environment where only DEBUG is set. -/
theorem config_init_env_spec_witness :
    (Config.init (fun k => if k = "DEBUG" then Option.some "FALSE" else Option.none)).version
        = "1.0.0" ∧
    (Config.init (fun k => if k = "DEBUG" then Option.some "FALSE" else Option.none)).environment
        = "development" ∧
    (Config.init (fun k => if k = "DEBUG" then Option.some "FALSE" else Option.none)).debug
        = (pyLower "FALSE" == "true") ∧
    (Config.init (fun k => if k = "DEBUG" then Option.some "FALSE" else Option.none)).messageTag
        = "[DEMO]" := by
  have h := config_init_env_spec (fun k => if k = "DEBUG" then Option.some "FALSE" else Option.none)
  exact ⟨h.1, h.2.1 (by decide), h.2.2.2.2.1 "FALSE" (by decide), h.2.2.2.2.2.1 (by decide)⟩

/-- C3: format_message returns the message unchanged when the prefix argument
is None or the empty string, and returns prefix ++ " " ++ message for every
non-empty prefix. -/
theorem format_message_spec (message : String) :
    format_message message Option.none = message ∧
    format_message message (Option.some "") = message ∧
    (∀ p : String, p ≠ "" → format_message message (Option.some p) = p ++ " " ++ message) := by
  refine ⟨rfl, rfl, ?_⟩
  intro p hp
  simp [format_message, optStrTruthy, strTruthy, hp]

/-- Witness for C3: the spec's own examples. -/
theorem format_message_spec_witness :
    format_message "Hello World" Option.none = "Hello World" ∧
    format_message "Hello World" (Option.some "[TEST]") = "[TEST] Hello World" := by
  have h := format_message_spec "Hello World"
  exact ⟨h.1, (h.2.2 "[TEST]" (by decide)).trans rfl⟩

/-- C4: validate_config is true iff both the "version" and the "environment"
keys are present, regardless of values or extra keys, and is false on the
empty mapping. -/
theorem validate_config_spec (config_dict : List (String × PyVal)) :
    validate_config config_dict =
      ((dictGet config_dict "version").isSome && (dictGet config_dict "environment").isSome) ∧
    validate_config [] = false := by
  constructor
  · cases h1 : (dictGet config_dict "version").isSome <;>
      cases h2 : (dictGet config_dict "environment").isSome <;>
      simp [validate_config, checkRequiredKeys, h1, h2]
  · rfl

/-- C5: safe_get returns the stored value when the key is present — including
a stored None, which is returned rather than the default — and the default
when the key is absent. -/
theorem safe_get_spec (dictionary : List (String × PyVal)) (key : String) (default : PyVal) :
    (∀ v, dictGet dictionary key = Option.some v → safe_get dictionary key default = v) ∧
    (dictGet dictionary key = Option.none → safe_get dictionary key default = default) := by
  constructor
  · intro v h; simp [safe_get, pyDictGetD, h]
  · intro h; simp [safe_get, pyDictGetD, h]

/-- Witness for C5: the spec's present-null example, plus an absent key. -/
theorem safe_get_spec_witness :
    safe_get [("key1", PyVal.none)] "key1" (PyVal.str "default") = PyVal.none ∧
    safe_get [("key1", PyVal.none)] "key2" (PyVal.str "default") = PyVal.str "default" :=
  ⟨(safe_get_spec [("key1", PyVal.none)] "key1" (PyVal.str "default")).1 PyVal.none rfl,
   (safe_get_spec [("key1", PyVal.none)] "key2" (PyVal.str "default")).2 rfl⟩

/-- C6 counterexample: at a concrete input the record built by process_data
has no "original" key at all (the code keys the input under "original_data"),
so it is not the four-field mapping {original: value, ...} the claim states. -/
theorem process_data_no_original_key :
    dictGet (process_data (PyVal.str "1.0.0") (PyVal.int 5) "2024-01-01T00:00:00") "original"
      = Option.none := rfl

/-- C6 (amended): process_data returns a new mapping of exactly four fields
keyed "original_data", "processed_at", "status", "version", where
"original_data" (not "original") carries the input value unchanged, status is
always the literal "processed", and version carries the version string. -/
theorem process_data_spec (self_version data : PyVal) (ts : String) :
    (process_data self_version data ts).map Prod.fst =
      ["original_data", "processed_at", "status", "version"] ∧
    dictGet (process_data self_version data ts) "original_data" = Option.some data ∧
    dictGet (process_data self_version data ts) "processed_at" = Option.some (PyVal.str ts) ∧
    dictGet (process_data self_version data ts) "status" = Option.some (PyVal.str "processed") ∧
    dictGet (process_data self_version data ts) "version" = Option.some self_version :=
  ⟨rfl, rfl, rfl, rfl, rfl⟩

/-- C7: the debug field is true iff the DEBUG environment variable's value —
or "true" when absent — equals "true" case-insensitively; in particular it is
true when DEBUG is unset and false for "false" or "1". -/
theorem config_debug_spec (env : String → Option String) :
    ((Config.init env).debug = true ↔ pyLower ((env "DEBUG").getD "true") = "true") ∧
    (Config.init (fun _ => Option.none)).debug = true ∧
    (Config.init (fun k => if k = "DEBUG" then Option.some "false" else Option.none)).debug
        = false ∧
    (Config.init (fun k => if k = "DEBUG" then Option.some "1" else Option.none)).debug
        = false := by
  refine ⟨?_, by decide, by decide, by decide⟩
  simp [Config.init, getenv]

/-- C8: for every environment, the mapping view Config().to_dict() has all
four fields — version, environment, debug, message_prefix — present, and the
debug entry is boolean-typed. -/
theorem config_to_dict_fields (env : String → Option String) :
    ((Config.init env).to_dict).map Prod.fst =
      ["version", "environment", "debug", "message_prefix"] ∧
    (dictGet ((Config.init env).to_dict) "version").isSome = true ∧
    (dictGet ((Config.init env).to_dict) "environment").isSome = true ∧
    (dictGet ((Config.init env).to_dict) "debug").isSome = true ∧
    (dictGet ((Config.init env).to_dict) "message_prefix").isSome = true ∧
    dictGet ((Config.init env).to_dict) "debug"
        = Option.some (PyVal.bool ((Config.init env).debug)) :=
  ⟨rfl, rfl, rfl, rfl, rfl, rfl⟩

/-- C9: for every environment, validate_config(Config().to_dict()) is true:
the constructor unconditionally populates both required keys. -/
theorem config_to_dict_validates (env : String → Option String) :
    validate_config ((Config.init env).to_dict) = true := rfl

/-- C10: get_status reports "unknown" as the environment for every app state
whose resolved config lacks the "environment" key; after a malformed-JSON
load (empty config) it reports environment "unknown" and version "1.0.0"
captured at construction; get_status is a total function, so it never raises. -/
theorem get_status_unknown_env (fs : String → JsonReadResult) (config_path ts : String) :
    (∀ app : AzureDevOpsApp, dictGet app.config "environment" = Option.none →
      dictGet (get_status app ts) "environment" = Option.some (PyVal.str "unknown")) ∧
    (fs config_path = JsonReadResult.invalidJson →
      dictGet (get_status (AzureDevOpsApp.init fs config_path) ts) "environment"
          = Option.some (PyVal.str "unknown") ∧
      dictGet (get_status (AzureDevOpsApp.init fs config_path) ts) "version"
          = Option.some (PyVal.str "1.0.0")) := by
  constructor
  · intro app h
    simp [get_status, pyDictGetD, h, dictGet]
  · intro h
    simp [AzureDevOpsApp.init, load_config, h, get_status, pyDictGetD, dictGet]

/-- Witness for C10: a concrete app whose config lacks "environment", and a
concrete file system whose config file holds malformed JSON. -/
theorem get_status_unknown_env_witness :
    dictGet (get_status (AzureDevOpsApp.mk [("debug", PyVal.bool true)] (PyVal.str "1.0.0")) "t")
        "environment" = Option.some (PyVal.str "unknown") ∧
    dictGet (get_status (AzureDevOpsApp.init (fun _ => JsonReadResult.invalidJson)
        "src/config.json") "t") "environment" = Option.some (PyVal.str "unknown") ∧
    dictGet (get_status (AzureDevOpsApp.init (fun _ => JsonReadResult.invalidJson)
        "src/config.json") "t") "version" = Option.some (PyVal.str "1.0.0") := by
  have h := get_status_unknown_env (fun _ => JsonReadResult.invalidJson) "src/config.json" "t"
  exact ⟨h.1 (AzureDevOpsApp.mk [("debug", PyVal.bool true)] (PyVal.str "1.0.0")) rfl,
    (h.2 rfl).1, (h.2 rfl).2⟩
